import Mathlib

/-!
Verification development for the pledge-manager repository.

The definitions below are a shallow embedding of the Python source under
`src/pledges/` (models.py, views.py, sms_utils.py, whatsapp_utils.py).
Strings are modelled as Lean `String`/`List Char`; Python `Decimal` amounts
with two fractional digits are modelled as integer cents (`Int`); the
relational store is a list of records; Python exceptions are modelled with
`Option`/`Except`; the random stream feeding card-code generation and the
external providers (SMS gateway, WhatsApp HTTP API, image rendering) are
explicit parameters, since they are outside the program.
-/

namespace PledgeManager

/-! ## Python string helpers -/

/-- Characters stripped by Python `str.strip()` (space, tab, newline,
carriage return, vertical tab, form feed), by code point. -/
def isPySpace (c : Char) : Bool :=
  c.toNat = 32 || c.toNat = 9 || c.toNat = 10 || c.toNat = 13 ||
  c.toNat = 11 || c.toNat = 12

/-- ASCII decimal digit test, as used by the regex character class `[0-9]`. -/
def isDigitChar (c : Char) : Bool :=
  48 ≤ c.toNat && c.toNat ≤ 57

/-- Python `str.strip()` on a character list: drop leading and trailing
whitespace. -/
def pyStripList (cs : List Char) : List Char :=
  ((cs.dropWhile isPySpace).reverse.dropWhile isPySpace).reverse

/-- Python `str.strip()`. -/
def pyStrip (s : String) : String :=
  ⟨pyStripList s.toList⟩

/-- Python `str.startswith('+')`. -/
def startsWithPlus : List Char → Bool
  | [] => false
  | c :: _ => c = '+'

/-- Python `str.lower()` (ASCII case folding suffices for this code base). -/
def toLowerStr (s : String) : String :=
  ⟨s.toList.map Char.toLower⟩

/-! ## Phone normalizer — `format_phone_number`, src/pledges/models.py lines 9-43 -/

/-- The digit-rewriting core of `format_phone_number` (models.py lines 27-41),
applied to the digits remaining after `re.sub(r'[^0-9]', '', phone_str)`:
rewrite a 12-digit `255...` number to local form, ensure a leading `0`,
then force exactly 10 digits. -/
def fixDigits (d : List Char) : List Char :=
  let d1 := if d.take 3 = ['2', '5', '5'] ∧ d.length = 12 then '0' :: d.drop 3 else d
  let d2 := if d1.head? = some '0' then d1 else '0' :: d1
  if 10 < d2.length then '0' :: d2.drop (d2.length - 9)
  else if d2.length < 10 then d2 ++ List.replicate (10 - d2.length) '0'
  else d2

/-- `format_phone_number` (models.py lines 9-43).  An empty input (Python
falsy string) is returned unchanged; a `+`-prefixed input is returned
stripped as-is; otherwise non-digits are removed and `fixDigits` applies. -/
def format_phone_number (s : String) : String :=
  if s = "" then s
  else
    let phone_str := pyStripList s.toList
    if startsWithPlus phone_str then ⟨phone_str⟩
    else ⟨fixDigits (phone_str.filter isDigitChar)⟩

/-- Full match of the regex `^\+[1-9]\d{1,14}$` (models.py line 57). -/
def intlMatch (cs : List Char) : Bool :=
  match cs with
  | c0 :: c :: rest =>
    c0 = '+' && (49 ≤ c.toNat && c.toNat ≤ 57) && rest.all isDigitChar &&
      1 ≤ rest.length && rest.length ≤ 14
  | _ => false

/-- Full match of the regex `^0\d{9}$` (models.py line 62). -/
def localMatch (cs : List Char) : Bool :=
  match cs with
  | c :: rest => c = '0' && rest.length = 9 && rest.all isDigitChar
  | [] => false

/-- `validate_phone_number` (models.py lines 46-63); `Except.error` models a
raised `ValidationError`. -/
def validate_phone_number (s : String) : Except String Unit :=
  if s = "" then .error "Phone number is required"
  else
    let phone_str := pyStripList s.toList
    if startsWithPlus phone_str then
      if intlMatch phone_str then .ok ()
      else .error "Invalid international phone number format"
    else
      if localMatch phone_str then .ok ()
      else .error "Phone number must start with 0 and have exactly 10 digits"

example : format_phone_number "0712345678" = "0712345678" := by decide
example : format_phone_number "255712345678" = "0712345678" := by decide
example : format_phone_number "712345678" = "0712345678" := by decide
example : format_phone_number "+255712345678" = "+255712345678" := by decide
example : format_phone_number " 07 1234-5678 " = "0712345678" := by decide
example : format_phone_number "abc" = "0000000000" := by decide
example : format_phone_number "2557123456789" = "0123456789" := by decide
example : validate_phone_number "0712345678" = .ok () := rfl
example : (validate_phone_number "12345").isOk = false := by decide
example : validate_phone_number "+255712345678" = .ok () := rfl

/-! ## Record model — `PledgeRecord`, src/pledges/models.py lines 66-133

Decimal amounts (`max_digits=10, decimal_places=2`) are integer cents.
The UUID primary key is modelled as a `Nat` identifier.  Fields not touched
by any modelled operation (`attended_count`, timestamps) are omitted. -/

structure PledgeRecord where
  id : Nat
  mobile_number : String
  name : String
  pledge : Int
  paid : Int
  remaining : Int
  card_capacity : Int
  card_code : String
  invitation_image_url : Option String
  normal_message_sent : Bool
  whatsapp_sent : Bool
deriving DecidableEq, Repr

/-- The card-code alphabet (models.py line 93): letters minus the
digit-confusable `O`, `I`, `S`, `Z`. -/
def codeAlphabet : List Char := "ABCDEFGHJKLMNPQRTUVWXY".toList

theorem codeAlphabet_length : codeAlphabet.length = 22 := rfl

/-- One draw of `random.choices(allowed_chars, k=3)`: three independent
indices into the 22-character alphabet. -/
def CodeTriple : Type := Fin 22 × Fin 22 × Fin 22

def pickChar (i : Fin 22) : Char :=
  codeAlphabet.get (Fin.cast codeAlphabet_length.symm i)

def codeOfTriple (t : CodeTriple) : String :=
  ⟨[pickChar t.1, pickChar t.2.1, pickChar t.2.2]⟩

/-- `PledgeRecord.objects.filter(card_code=code).exclude(pk=self.pk).exists()`
(models.py lines 97-100).  The `exclude` always applies because a UUID
primary key with a default is assigned at instantiation. -/
def cardCodeTaken (selfId : Nat) (store : List PledgeRecord) (code : String) : Bool :=
  store.any (fun o => o.id ≠ selfId && o.card_code = code)

/-- `generate_unique_card_code` (models.py lines 90-101).  The unbounded
rejection-sampling loop is driven by the explicit stream of random draws;
`none` models the loop never finding a free code within the supplied
stream (in Python: not yet terminated). -/
def generate_unique_card_code (selfId : Nat) (store : List PledgeRecord) :
    List CodeTriple → Option String
  | [] => none
  | t :: rest =>
    let code := codeOfTriple t
    if cardCodeTaken selfId store code then generate_unique_card_code selfId store rest
    else some code

/-- `DecimalValidator(max_digits=10, decimal_places=2)` bound, in cents:
at most 8 integer digits and 2 fractional digits. -/
def decimalOk (v : Int) : Bool := v.natAbs ≤ 9999999999

/-- Python truthiness/blank test `not s or s.strip() == ''` for a string:
true exactly when every character is whitespace. -/
def isBlank (s : String) : Bool := s.toList.all isPySpace

/-- Field-level checks performed by `full_clean`'s `clean_fields` step for
the fields this model carries: required `CharField`s are non-empty and
within `max_length`; decimal fields are within `max_digits`. -/
def clean_fields_ok (r : PledgeRecord) : Bool :=
  r.mobile_number ≠ "" && r.mobile_number.length ≤ 15 &&
  r.name ≠ "" && r.name.length ≤ 255 &&
  decimalOk r.pledge && decimalOk r.paid && decimalOk r.remaining &&
  r.card_code.length ≤ 10

/-- `PledgeRecord.clean` (models.py lines 103-107): validate the phone
number when the field is truthy. -/
def clean_ok (r : PledgeRecord) : Bool :=
  if r.mobile_number ≠ "" then
    match validate_phone_number r.mobile_number with
    | .ok _ => true
    | .error _ => false
  else true

/-- `full_clean`'s `validate_unique` step: no *other* row may share
`mobile_number` or `card_code`. -/
def validate_unique_ok (r : PledgeRecord) (store : List PledgeRecord) : Bool :=
  store.all (fun o =>
    o.id = r.id || (o.mobile_number ≠ r.mobile_number && o.card_code ≠ r.card_code))

/-- `self.full_clean()` (models.py line 132). -/
def full_clean_ok (r : PledgeRecord) (store : List PledgeRecord) : Bool :=
  clean_fields_ok r && clean_ok r && validate_unique_ok r store

/-- Steps 3-4 of the save pipeline (models.py lines 118-129): recompute
`remaining = pledge - paid` unconditionally, then recompute
`card_capacity` from `paid` unless the current value exceeds 2.  Amounts
are cents, so the `paid` thresholds 100000 and 50000 become 10000000 and
5000000. -/
def deriveFields (r : PledgeRecord) : PledgeRecord :=
  let ra := { r with remaining := r.pledge - r.paid }
  if ra.card_capacity ≤ 2 then
    { ra with card_capacity :=
        if 10000000 ≤ ra.paid then 2 else if 5000000 ≤ ra.paid then 1 else 0 }
  else ra

/-- Step 1 of the save pipeline (models.py lines 110-112): format the phone
number when the field is truthy. -/
def phoneStep (r : PledgeRecord) : PledgeRecord :=
  if r.mobile_number ≠ "" then
    { r with mobile_number := format_phone_number r.mobile_number }
  else r

/-- `PledgeRecord.save` (models.py lines 109-133): format the phone number,
generate a card code when the current one is blank, derive `remaining` and
`card_capacity`, validate, then persist.  `none` models a raised
`ValidationError` (or a code-generation stream that never terminates). -/
def PledgeRecord.save (r : PledgeRecord) (store : List PledgeRecord)
    (cands : List CodeTriple) : Option PledgeRecord :=
  let r1 := phoneStep r
  match (if isBlank r1.card_code then generate_unique_card_code r1.id store cands
         else some r1.card_code) with
  | none => none
  | some code =>
    let r4 := deriveFields { r1 with card_code := code }
    if full_clean_ok r4 store then some r4 else none

/-- The effect of a successful `save` on the table: update the row with the
same primary key, or insert a new row. -/
def upsert (store : List PledgeRecord) (r : PledgeRecord) : List PledgeRecord :=
  if store.any (fun o => o.id = r.id) then
    store.map (fun o => if o.id = r.id then r else o)
  else store ++ [r]

/-- A convenient concrete record used in closed statements below. -/
def testRec (cap : Int) (paid : Int) : PledgeRecord :=
  { id := 1, mobile_number := "0712345678", name := "Alice", pledge := paid,
    paid := paid, remaining := 0, card_capacity := cap, card_code := "ABC",
    invitation_image_url := none, normal_message_sent := false,
    whatsapp_sent := false }

example : (Option.map (fun r => r.card_capacity) ((testRec 0 4999999).save [] [])) = some 0 := by decide
example : (Option.map (fun r => r.card_capacity) ((testRec 0 5000000).save [] [])) = some 1 := by decide
example : (Option.map (fun r => r.card_capacity) ((testRec 0 9999999).save [] [])) = some 1 := by decide
example : (Option.map (fun r => r.card_capacity) ((testRec 0 10000000).save [] [])) = some 2 := by decide
example : (Option.map (fun r => r.card_capacity) ((testRec 5 20000000).save [] [])) = some 5 := by decide
example : (Option.map (fun r => r.card_code)
    (PledgeRecord.save { testRec 0 0 with card_code := "" } [] [(⟨0, by decide⟩, ⟨1, by decide⟩, ⟨2, by decide⟩)]))
    = some "ABC" := by decide

/-! ## Upload reconciler — `process_upload_data`, src/pledges/views.py lines 86-186

A data frame is a list of column headers plus one association list per row
(cell values as the strings `str(...)` produces).  The per-file transaction
is modelled by threading the store through the row loop; per-row exceptions
are `Except.error` values caught by the loop. -/

structure UploadLog where
  filename : String
  total_records : Nat
  new_records : Nat
  updated_records : Nat
  errors : String
deriving DecidableEq, Repr

def Row : Type := List (String × String)

structure DataFrame where
  columns : List String
  rows : List Row

/-- Header normalization (views.py line 89):
`str.strip().str.lower().str.replace(' ', '_')`. -/
def normalizeHeader (s : String) : String :=
  ⟨(pyStripList s.toList).map (fun c => if c.toLower = ' ' then '_' else c.toLower)⟩

/-- The alias table (views.py lines 92-98). -/
def column_mapping : List (String × List String) :=
  [ ("name", ["name", "full_name", "person_name"]),
    ("mobile_number", ["mobile_number", "mobile", "phone", "phone_number", "contact"]),
    ("pledge", ["pledge", "pledged", "pledge_amount"]),
    ("paid", ["paid", "amount_paid", "paid_amount"]),
    ("remaining", ["remaining", "balance", "remaining_amount"]) ]

/-- Resolution of actual column names (views.py lines 101-106): for each
canonical field, the first alias present among the headers wins. -/
def resolveColumns (cols : List String) : List (String × String) :=
  column_mapping.filterMap (fun m =>
    (m.2.find? (fun possible => cols.contains possible)).map (fun a => (m.1, a)))

def required_columns : List String := ["name", "mobile_number", "pledge", "paid"]

/-- Digit list to number. -/
def digitsToNat (cs : List Char) : Nat :=
  cs.foldl (fun a c => 10 * a + (c.toNat - 48)) 0

/-- Value in cents of a fractional part of at most two digits. -/
def fracCents : List Char → Nat
  | [] => 0
  | [a] => 10 * (a.toNat - 48)
  | a :: b :: _ => 10 * (a.toNat - 48) + (b.toNat - 48)

/-- `Decimal(str(v))` to cents, for an unsigned literal `digits[.digits]`.
Exponent forms are omitted, and fractional parts longer than two digits are
rejected here rather than by the later `DecimalValidator` — in the source
both failures raise inside the same per-row `try`. -/
def parseUnsigned (cs : List Char) : Option Int :=
  let intPart := cs.takeWhile isDigitChar
  match cs.dropWhile isDigitChar with
  | [] => if intPart = [] then none else some (100 * (digitsToNat intPart : Int))
  | '.' :: frac =>
    if frac.all isDigitChar && (intPart ≠ [] || frac ≠ []) && frac.length ≤ 2 then
      some (100 * (digitsToNat intPart : Int) + (fracCents frac : Int))
    else none
  | _ => none

/-- `Decimal(str(v))` to cents, with optional sign and surrounding
whitespace (both accepted by Python's `Decimal`). -/
def parseDecimal (s : String) : Option Int :=
  match pyStripList s.toList with
  | '-' :: rest => (parseUnsigned rest).map (fun n => -n)
  | '+' :: rest => parseUnsigned rest
  | cs => parseUnsigned cs

/-- `str(v).replace(',', '')` (views.py lines 125-130). -/
def stripCommas (s : String) : String := ⟨s.toList.filter (fun c => c ≠ ',')⟩

def getCell (row : Row) (col : String) : Except String String :=
  match row.lookup col with
  | some v => .ok v
  | none => .error ("KeyError: " ++ col)

def parseDecCell (s : String) : Except String Int :=
  match parseDecimal (stripCommas s) with
  | some v => .ok v
  | none => .error ("InvalidOperation: " ++ s)

/-- Python `s.lower() in ['nan', 'none']`. -/
def isNullMarker (s : String) : Bool :=
  toLowerStr s = "nan" || toLowerStr s = "none"

structure UpState where
  store : List PledgeRecord
  new_records : Nat
  updated_records : Nat
  errors : List String
deriving Repr

/-- The skip check and `get_or_create` upsert for one parsed row
(views.py lines 135-162): skip silently when the mobile number is falsy or
a null marker; otherwise create a new record (counted as new) or overwrite
the four data fields of the existing one (counted as updated), running the
full save pipeline either way. -/
def upsertRow (fid : Nat) (cnds : List CodeTriple) (mobile nm : String)
    (pledge paid remaining : Int) (st : UpState) : Except String UpState :=
  if mobile = "" || isNullMarker mobile then .ok st
  else
    match st.store.find? (fun o => o.mobile_number = mobile) with
    | none =>
      let newRec : PledgeRecord :=
        { id := fid, mobile_number := mobile, name := nm, pledge := pledge,
          paid := paid, remaining := remaining, card_capacity := 0,
          card_code := "", invitation_image_url := none,
          normal_message_sent := false, whatsapp_sent := false }
      match newRec.save st.store cnds with
      | some r => .ok { st with store := upsert st.store r,
                                new_records := st.new_records + 1 }
      | none => .error "ValidationError"
    | some rec =>
      let rec2 := { rec with name := nm, pledge := pledge, paid := paid,
                             remaining := remaining }
      match rec2.save st.store cnds with
      | some r => .ok { st with store := upsert st.store r,
                                updated_records := st.updated_records + 1 }
      | none => .error "ValidationError"

/-- The body of the per-row `try` (views.py lines 122-162).  `Except.error`
models an exception escaping to the surrounding handler.  `fid` is the
fresh primary key used if a new record is created and `cnds` the random
stream for its card code. -/
def rowAttempt (ncol mcol pcol qcol : String) (rcol : Option String)
    (fid : Nat) (cnds : List CodeTriple) (row : Row) (st : UpState) :
    Except String UpState := do
  let mraw ← getCell row mcol
  let mobile0 := pyStrip mraw
  let nraw ← getCell row ncol
  let nm := pyStrip nraw
  let praw ← getCell row pcol
  let pledge ← parseDecCell praw
  let qraw ← getCell row qcol
  let paid ← parseDecCell qraw
  let remaining ← match rcol with
    | some rc => do
      let rraw ← getCell row rc
      parseDecCell rraw
    | none => pure (pledge - paid)
  let mobile := if mobile0 ≠ "" && !isNullMarker mobile0 then
      format_phone_number mobile0 else mobile0
  upsertRow fid cnds mobile nm pledge paid remaining st

/-- One loop iteration (views.py lines 121-165): run the row body, catching
any exception into a `"Row {index+1}: {message}"` error entry. -/
def processRow (ncol mcol pcol qcol : String) (rcol : Option String)
    (fid : Nat) (cnds : List CodeTriple) (i : Nat) (row : Row)
    (st : UpState) : UpState :=
  match rowAttempt ncol mcol pcol qcol rcol fid cnds row st with
  | .ok st' => st'
  | .error msg =>
    { st with errors := st.errors ++ ["Row " ++ toString (i + 1) ++ ": " ++ msg] }

/-- The `for index, row in df.iterrows()` loop. -/
def processRows (ncol mcol pcol qcol : String) (rcol : Option String)
    (freshIds : Nat → Nat) (cands : Nat → List CodeTriple) :
    Nat → List Row → UpState → UpState
  | _, [], st => st
  | i, row :: rest, st =>
    processRows ncol mcol pcol qcol rcol freshIds cands (i + 1) rest
      (processRow ncol mcol pcol qcol rcol (freshIds i) (cands i) i row st)

structure UploadReport where
  total_records : Nat
  new_records : Nat
  updated_records : Nat
  errors : List String
  message : String
deriving DecidableEq, Repr

def uploadMessage (t n u e : Nat) : String :=
  "Processed " ++ toString t ++ " records. New: " ++ toString n ++
    ", Updated: " ++ toString u ++
    (if e ≠ 0 then ". Errors: " ++ toString e else "")

/-- The canonical fields with no resolved column (views.py line 110). -/
def missingColumnsOf (df : DataFrame) : List String :=
  required_columns.filter
    (fun c => ((resolveColumns (df.columns.map normalizeHeader)).lookup c).isNone)

/-- `process_upload_data` (views.py lines 86-186).  Returns the report (or
the raised `ValueError`) together with the record store and the upload-log
table after the call.  `freshIds`/`cands` supply the primary keys for
created rows and the random card-code stream, indexed by row position. -/
def process_upload_data (df : DataFrame) (filename : String)
    (freshIds : Nat → Nat) (cands : Nat → List CodeTriple)
    (store : List PledgeRecord) (logs : List UploadLog) :
    Except String UploadReport × List PledgeRecord × List UploadLog :=
  let rows := df.rows.map (fun r => r.map (fun kv => (normalizeHeader kv.1, kv.2)))
  let ac := resolveColumns (df.columns.map normalizeHeader)
  if missingColumnsOf df ≠ [] then
    (.error ("Missing required columns: " ++
       String.intercalate ", " (missingColumnsOf df)), store, logs)
  else
    match ac.lookup "name", ac.lookup "mobile_number",
          ac.lookup "pledge", ac.lookup "paid" with
    | some ncol, some mcol, some pcol, some qcol =>
      let rcol := ac.lookup "remaining"
      let st0 : UpState := { store := store, new_records := 0,
                             updated_records := 0, errors := [] }
      let stF := processRows ncol mcol pcol qcol rcol freshIds cands 0 rows st0
      let logRow : UploadLog :=
        { filename := filename, total_records := rows.length,
          new_records := stF.new_records, updated_records := stF.updated_records,
          errors := String.intercalate "; " stF.errors }
      (.ok { total_records := rows.length, new_records := stF.new_records,
             updated_records := stF.updated_records, errors := stF.errors,
             message := uploadMessage rows.length stF.new_records
               stF.updated_records stF.errors.length },
       stF.store, logs ++ [logRow])
    | _, _, _, _ => (.error "Missing required columns: ", store, logs)

/-! ## Notification dispatchers — src/pledges/sms_utils.py and whatsapp_utils.py

The external SMS gateway call and the WhatsApp HTTP call are inputs: a
`ProviderResult` is what `client.send_single_message` does (return a
response or raise) and a `WaApiResult` is the HTTP response of the Meta
API.  The message-template text lives in Django settings (not part of
`src/`), so the template string and Python's `str.format` substitution are
parameters `defaultTemplate`/`fmt` of the dispatcher functions. -/

inductive MsgStatus where
  | pending
  | sent
  | failed
deriving DecidableEq, Repr

/-- The `SMSMessage` model (models.py lines 153-176); `sent_at` is omitted. -/
structure SMSMessage where
  id : Nat
  pledge_record_id : Nat
  recipient_name : String
  recipient_mobile : String
  message_content : String
  status : MsgStatus
  message_id : String
  error_message : String
  message_type : String
deriving DecidableEq, Repr

/-- Outcome of `client.send_single_message`: a response carrying
`messageId`/`status`, or a raised exception with its text. -/
inductive ProviderResult where
  | success (messageId : String) (status : String)
  | failure (error : String)
deriving DecidableEq, Repr

structure SmsSendOutcome where
  success : Bool
  message_id : String
  error : String
  sms_record_id : Nat
deriving DecidableEq, Repr

/-- `SMSMessage.objects.filter(...)`-style in-place row update by primary key. -/
def updateMsg (msgs : List SMSMessage) (mid : Nat) (m : SMSMessage) :
    List SMSMessage :=
  msgs.map (fun o => if o.id = mid then m else o)

/-- Capacity display used by `send_pledge_sms` (sms_utils.py lines 20-25). -/
def capacity_display_upper (c : Int) : String :=
  if c = 2 then "DOUBLE" else if c = 1 then "SINGLE" else toString c

/-- Capacity display used by `send_forwarded_sms` (sms_utils.py lines 114-119). -/
def capacity_display_title (c : Int) : String :=
  if c = 2 then "Double" else if c = 1 then "Single" else toString c

/-- Python truthiness of the optional custom message (`if custom_message:`). -/
def customTruthy : Option String → Bool
  | some m => m ≠ ""
  | none => false

/-- `SMSService.send_pledge_sms` (sms_utils.py lines 13-92).  Returns the
view of the message table right after the `pending` insert and at the end
of the call, together with the result dict.  `mid` is the fresh primary key
the insert receives. -/
def send_pledge_sms (fmt : String → PledgeRecord → String → String)
    (defaultTemplate : String) (r : PledgeRecord) (custom : Option String)
    (provider : ProviderResult) (msgs : List SMSMessage) (mid : Nat) :
    SmsSendOutcome × List SMSMessage × List SMSMessage :=
  let cd := capacity_display_upper r.card_capacity
  let message := match custom with
    | some m => if m = "" then fmt defaultTemplate r cd else fmt m r cd
    | none => fmt defaultTemplate r cd
  let pendingMsg : SMSMessage :=
    { id := mid, pledge_record_id := r.id, recipient_name := r.name,
      recipient_mobile := r.mobile_number, message_content := message,
      status := .pending, message_id := "", error_message := "",
      message_type := if customTruthy custom then "custom" else "wedding_invitation" }
  let afterCreate := msgs ++ [pendingMsg]
  match provider with
  | .success pmid _st =>
    ({ success := true, message_id := pmid, error := "", sms_record_id := mid },
     afterCreate,
     updateMsg afterCreate mid { pendingMsg with status := .sent, message_id := pmid })
  | .failure err =>
    ({ success := false, message_id := "", error := err, sms_record_id := mid },
     afterCreate,
     updateMsg afterCreate mid { pendingMsg with status := .failed, error_message := err })

structure ForwardOutcome where
  success : Bool
  message_id : String
  error : String
  sms_record_id : Nat
  recipient_number : String
  recipient_name : Option String
deriving DecidableEq, Repr

/-- `SMSService.send_forwarded_sms` (sms_utils.py lines 107-191).  The
pledge-record store is passed through untouched: the source reads the
original record but performs no write to it.  The `Option` recipient name
models the Python default `recipient_name=None` and the
`recipient_name or 'Forwarded Guest'` fallback. -/
def send_forwarded_sms (fmt : String → PledgeRecord → String → String)
    (defaultTemplate : String) (original : PledgeRecord)
    (recipient_number : String) (recipient_name : Option String)
    (custom : Option String) (provider : ProviderResult)
    (store : List PledgeRecord) (msgs : List SMSMessage) (mid : Nat) :
    ForwardOutcome × List PledgeRecord × List SMSMessage × List SMSMessage :=
  let cd := capacity_display_title original.card_capacity
  let message := match custom with
    | some m => if m = "" then fmt defaultTemplate original cd else fmt m original cd
    | none => fmt defaultTemplate original cd
  let rname := match recipient_name with
    | some n => if n = "" then "Forwarded Guest" else n
    | none => "Forwarded Guest"
  let pendingMsg : SMSMessage :=
    { id := mid, pledge_record_id := original.id, recipient_name := rname,
      recipient_mobile := recipient_number, message_content := message,
      status := .pending, message_id := "", error_message := "",
      message_type := "forwarded" }
  let afterCreate := msgs ++ [pendingMsg]
  match provider with
  | .success pmid _st =>
    ({ success := true, message_id := pmid, error := "", sms_record_id := mid,
       recipient_number := recipient_number, recipient_name := recipient_name },
     store, afterCreate,
     updateMsg afterCreate mid { pendingMsg with status := .sent, message_id := pmid })
  | .failure err =>
    ({ success := false, message_id := "", error := err, sms_record_id := mid,
       recipient_number := recipient_number, recipient_name := recipient_name },
     store, afterCreate,
     updateMsg afterCreate mid { pendingMsg with status := .failed, error_message := err })

/-- `WhatsAppService.format_phone_for_whatsapp` (whatsapp_utils.py
lines 124-143). -/
def format_phone_for_whatsapp (s : String) : Option String :=
  if s = "" then none
  else
    let t := pyStripList s.toList
    if startsWithPlus t then some ⟨t.drop 1⟩
    else if t.head? = some '0' ∧ t.length = 10 then some ⟨'2' :: '5' :: '5' :: t.drop 1⟩
    else if t.take 3 = ['2', '5', '5'] ∧ t.length = 12 then some ⟨t⟩
    else none

structure WaOutcome where
  success : Bool
  message_id : String
  error : String
deriving DecidableEq, Repr

/-- The HTTP response of the Meta graph API POST. -/
inductive WaApiResult where
  | ok (messageId : String)
  | httpError (status : Nat) (body : String)
deriving DecidableEq, Repr

/-- `WhatsAppService.send_whatsapp_template` (whatsapp_utils.py
lines 197-279); `Except.error` models the raise on missing credentials. -/
def send_whatsapp_template (credsOk : Bool) (api : WaApiResult) :
    Except String WaOutcome :=
  if !credsOk then .error "WhatsApp API credentials not configured"
  else match api with
    | .ok mid => .ok { success := true, message_id := mid, error := "" }
    | .httpError st body =>
      .ok { success := false, message_id := "",
            error := "HTTP " ++ toString st ++ ": " ++ body }

/-- `WhatsAppService.generate_invitation_image` (whatsapp_utils.py
lines 145-195).  Image rendering and URL construction are external I/O
(spec §1, §6); `url` is the URL the rendering would produce and
`templateExists` whether the template file is present.  On success the
record's `invitation_image_url` is set and the record saved; any raise
inside — including a failing save — is caught and turned into `none`. -/
def generate_invitation_image (url : String) (templateExists : Bool)
    (r : PledgeRecord) (store : List PledgeRecord) (cands : List CodeTriple) :
    Option String × PledgeRecord × List PledgeRecord :=
  if !templateExists then (none, r, store)
  else
    let r2 := { r with invitation_image_url := some url }
    match r2.save store cands with
    | none => (none, r, store)
    | some r2s => (some url, r2s, upsert store r2s)

/-- `WhatsAppService.send_invitation_whatsapp` (whatsapp_utils.py
lines 281-336).  The message table `msgs` is passed through untouched: the
source never creates an `SMSMessage` (or any other message row) on this
path.  Returns the result dict, the record store and the message table
after the call. -/
def send_invitation_whatsapp (url : String) (templateExists credsOk : Bool)
    (api : WaApiResult) (r : PledgeRecord) (store : List PledgeRecord)
    (cands1 cands2 : List CodeTriple) (msgs : List SMSMessage) :
    WaOutcome × List PledgeRecord × List SMSMessage :=
  match format_phone_for_whatsapp r.mobile_number with
  | none =>
    ({ success := false, message_id := "",
       error := "Invalid phone number format: " ++ r.mobile_number }, store, msgs)
  | some _wa =>
    match generate_invitation_image url templateExists r store cands1 with
    | (none, _, store1) =>
      ({ success := false, message_id := "",
         error := "Failed to generate invitation image" }, store1, msgs)
    | (some _u, r1, store1) =>
      match send_whatsapp_template credsOk api with
      | .error e =>
        ({ success := false, message_id := "", error := e }, store1, msgs)
      | .ok outcome =>
        if outcome.success then
          let r2 := { r1 with whatsapp_sent := true }
          match r2.save store1 cands2 with
          | some r2s => (outcome, upsert store1 r2s, msgs)
          | none =>
            ({ success := false, message_id := "", error := "ValidationError" },
             store1, msgs)
        else (outcome, store1, msgs)

example : format_phone_for_whatsapp "0712345678" = some "255712345678" := by decide
example : format_phone_for_whatsapp "+255712345678" = some "255712345678" := by decide
example : format_phone_for_whatsapp "255712345678" = some "255712345678" := by decide
example : format_phone_for_whatsapp "712345678" = none := by decide

/-! ## Lemmas about the save pipeline -/

theorem phoneStep_id (r : PledgeRecord) : (phoneStep r).id = r.id := by
  unfold phoneStep; split <;> rfl

theorem phoneStep_card_code (r : PledgeRecord) :
    (phoneStep r).card_code = r.card_code := by
  unfold phoneStep; split <;> rfl

theorem phoneStep_pledge (r : PledgeRecord) : (phoneStep r).pledge = r.pledge := by
  unfold phoneStep; split <;> rfl

theorem phoneStep_paid (r : PledgeRecord) : (phoneStep r).paid = r.paid := by
  unfold phoneStep; split <;> rfl

theorem phoneStep_card_capacity (r : PledgeRecord) :
    (phoneStep r).card_capacity = r.card_capacity := by
  unfold phoneStep; split <;> rfl

theorem deriveFields_remaining (x : PledgeRecord) :
    (deriveFields x).remaining = x.pledge - x.paid := by
  simp only [deriveFields]; split <;> rfl

theorem deriveFields_pledge (x : PledgeRecord) :
    (deriveFields x).pledge = x.pledge := by
  simp only [deriveFields]; split <;> rfl

theorem deriveFields_paid (x : PledgeRecord) :
    (deriveFields x).paid = x.paid := by
  simp only [deriveFields]; split <;> rfl

theorem deriveFields_id (x : PledgeRecord) : (deriveFields x).id = x.id := by
  simp only [deriveFields]; split <;> rfl

theorem deriveFields_card_code (x : PledgeRecord) :
    (deriveFields x).card_code = x.card_code := by
  simp only [deriveFields]; split <;> rfl

theorem deriveFields_card_capacity (x : PledgeRecord) :
    (deriveFields x).card_capacity =
      if x.card_capacity ≤ 2 then
        (if 10000000 ≤ x.paid then 2 else if 5000000 ≤ x.paid then 1 else 0)
      else x.card_capacity := by
  simp only [deriveFields]
  by_cases h : x.card_capacity ≤ 2 <;> simp [h]

/-- Inversion for a successful save: the result is the derived record over
the phone-formatted input with some card code, it passed `full_clean`, and
the code either came from generation (blank case) or is the input's own. -/
theorem save_elim {r : PledgeRecord} {store : List PledgeRecord}
    {cands : List CodeTriple} {r' : PledgeRecord}
    (h : r.save store cands = some r') :
    ∃ code, r' = deriveFields { phoneStep r with card_code := code } ∧
      full_clean_ok r' store = true ∧
      ((isBlank r.card_code = true ∧
          generate_unique_card_code r.id store cands = some code) ∨
       (isBlank r.card_code = false ∧ code = r.card_code)) := by
  simp only [PledgeRecord.save] at h
  cases hs : (if isBlank (phoneStep r).card_code then
      generate_unique_card_code (phoneStep r).id store cands
    else some (phoneStep r).card_code) with
  | none => simp [hs] at h
  | some code =>
    simp only [hs] at h
    by_cases hf :
        full_clean_ok (deriveFields { phoneStep r with card_code := code }) store = true
    · rw [if_pos hf] at h
      have hr : deriveFields { phoneStep r with card_code := code } = r' :=
        Option.some.inj h
      subst hr
      refine ⟨code, rfl, hf, ?_⟩
      rw [phoneStep_card_code, phoneStep_id] at hs
      cases hb : isBlank r.card_code with
      | true => rw [hb] at hs; simp at hs; exact Or.inl ⟨rfl, hs⟩
      | false => rw [hb] at hs; simp at hs; exact Or.inr ⟨rfl, hs.symm⟩
    · rw [if_neg hf] at h
      cases h

/-- A successfully saved record satisfies `remaining = pledge - paid`. -/
theorem save_remaining {r : PledgeRecord} {store : List PledgeRecord}
    {cands : List CodeTriple} {r' : PledgeRecord}
    (h : r.save store cands = some r') :
    r'.remaining = r'.pledge - r'.paid := by
  obtain ⟨code, hr, -, -⟩ := save_elim h
  subst hr
  rw [deriveFields_remaining, deriveFields_pledge, deriveFields_paid]

theorem phoneStep_set_remaining (r : PledgeRecord) (x : Int) :
    phoneStep { r with remaining := x } = { phoneStep r with remaining := x } := by
  unfold phoneStep
  by_cases h : r.mobile_number = "" <;> simp [h]

/-- The save pipeline never reads the incoming `remaining` value. -/
theorem save_ignores_remaining (r : PledgeRecord) (store : List PledgeRecord)
    (cands : List CodeTriple) (x : Int) :
    PledgeRecord.save { r with remaining := x } store cands =
      r.save store cands := by
  simp only [PledgeRecord.save, phoneStep_set_remaining, deriveFields]

/-! ## Lemmas about the upload loop -/

theorem except_bind_ok {α β : Type} {x : Except String α} {f : α → Except String β}
    {b : β} (h : x >>= f = .ok b) : ∃ a, x = .ok a ∧ f a = .ok b := by
  cases x with
  | error e => exact Except.noConfusion h
  | ok a => exact ⟨a, rfl, h⟩

theorem mem_upsert {x r : PledgeRecord} {s : List PledgeRecord}
    (h : x ∈ upsert s r) : x ∈ s ∨ x = r := by
  unfold upsert at h
  split at h
  · rcases List.mem_map.mp h with ⟨o, ho, hx⟩
    by_cases hid : o.id = r.id
    · rw [if_pos hid] at hx; exact Or.inr hx.symm
    · rw [if_neg hid] at hx; exact Or.inl (hx ▸ ho)
  · rcases List.mem_append.mp h with hmem | hmem
    · exact Or.inl hmem
    · exact Or.inr (List.mem_singleton.mp hmem)

/-- A row body that returns normally either left the store alone (skip) or
upserted the result of one successful `save` against the current store. -/
theorem upsertRow_store {fid : Nat} {cnds : List CodeTriple}
    {mobile nm : String} {pledge paid remaining : Int} {st st' : UpState}
    (h : upsertRow fid cnds mobile nm pledge paid remaining st = .ok st') :
    st'.store = st.store ∨
      ∃ q rs, PledgeRecord.save q st.store cnds = some rs ∧
        st'.store = upsert st.store rs := by
  simp only [upsertRow] at h
  split at h
  · exact Or.inl (congrArg UpState.store (Except.ok.inj h)).symm
  · split at h
    · split at h
      · exact Or.inr ⟨_, _, by assumption,
          (congrArg UpState.store (Except.ok.inj h)).symm⟩
      · exact Except.noConfusion h
    · split at h
      · exact Or.inr ⟨_, _, by assumption,
          (congrArg UpState.store (Except.ok.inj h)).symm⟩
      · exact Except.noConfusion h

/-- A row body that returns normally either left the store alone (skip) or
upserted the result of one successful `save` against the current store. -/
theorem rowAttempt_store {ncol mcol pcol qcol : String} {rc : Option String}
    {fid : Nat} {cnds : List CodeTriple} {row : Row} {st st' : UpState}
    (h : rowAttempt ncol mcol pcol qcol rc fid cnds row st = .ok st') :
    st'.store = st.store ∨
      ∃ q rs, PledgeRecord.save q st.store cnds = some rs ∧
        st'.store = upsert st.store rs := by
  cases rc with
  | some rc' =>
    simp only [rowAttempt] at h
    obtain ⟨mraw, -, h⟩ := except_bind_ok h
    obtain ⟨nraw, -, h⟩ := except_bind_ok h
    obtain ⟨praw, -, h⟩ := except_bind_ok h
    obtain ⟨pledge, -, h⟩ := except_bind_ok h
    obtain ⟨qraw, -, h⟩ := except_bind_ok h
    obtain ⟨paid, -, h⟩ := except_bind_ok h
    obtain ⟨rraw, -, h⟩ := except_bind_ok h
    obtain ⟨remaining, -, h⟩ := except_bind_ok h
    exact upsertRow_store h
  | none =>
    simp only [rowAttempt] at h
    obtain ⟨mraw, -, h⟩ := except_bind_ok h
    obtain ⟨nraw, -, h⟩ := except_bind_ok h
    obtain ⟨praw, -, h⟩ := except_bind_ok h
    obtain ⟨pledge, -, h⟩ := except_bind_ok h
    obtain ⟨qraw, -, h⟩ := except_bind_ok h
    obtain ⟨paid, -, h⟩ := except_bind_ok h
    obtain ⟨remaining, -, h⟩ := except_bind_ok h
    exact upsertRow_store h

/-- One loop iteration either leaves the store alone (skipped or failed
row) or upserts one successfully saved record. -/
theorem processRow_store (ncol mcol pcol qcol : String) (rc : Option String)
    (fid : Nat) (cnds : List CodeTriple) (i : Nat) (row : Row) (st : UpState) :
    (processRow ncol mcol pcol qcol rc fid cnds i row st).store = st.store ∨
      ∃ q rs, PledgeRecord.save q st.store cnds = some rs ∧
        (processRow ncol mcol pcol qcol rc fid cnds i row st).store =
          upsert st.store rs := by
  unfold processRow
  cases ha : rowAttempt ncol mcol pcol qcol rc fid cnds row st with
  | ok st' => simpa using rowAttempt_store ha
  | error msg => exact Or.inl rfl

/-- Every record in the store after the row loop was either there before
the upload or is the output of a successful `save`, hence satisfies the
`remaining` invariant. -/
theorem processRows_remaining (ncol mcol pcol qcol : String) (rc : Option String)
    (freshIds : Nat → Nat) (cands : Nat → List CodeTriple)
    (base : List PledgeRecord) :
    ∀ (rows : List Row) (i : Nat) (st : UpState),
      (∀ x ∈ st.store, x ∈ base ∨ x.remaining = x.pledge - x.paid) →
      ∀ x ∈ (processRows ncol mcol pcol qcol rc freshIds cands i rows st).store,
        x ∈ base ∨ x.remaining = x.pledge - x.paid := by
  intro rows
  induction rows with
  | nil => intro i st hst; simpa [processRows] using hst
  | cons row rest ih =>
    intro i st hst
    simp only [processRows]
    apply ih
    intro x hx
    rcases processRow_store ncol mcol pcol qcol rc (freshIds i) (cands i) i row st with
      hsame | ⟨q, rs, hsave, hup⟩
    · rw [hsame] at hx; exact hst x hx
    · rw [hup] at hx
      rcases mem_upsert hx with hmem | rfl
      · exact hst x hmem
      · exact Or.inr (save_remaining hsave)


/-- Every record reachable through the upload loop is either a pre-existing
record of the store or the output of a successful `save`. -/
theorem upload_store_remaining (df : DataFrame) (fn : String)
    (fids : Nat → Nat) (cands : Nat → List CodeTriple)
    (store : List PledgeRecord) (logs : List UploadLog) :
    ∀ r' ∈ (process_upload_data df fn fids cands store logs).2.1,
      r' ∈ store ∨ r'.remaining = r'.pledge - r'.paid := by
  intro r' hr'
  simp only [process_upload_data] at hr'
  split at hr'
  · exact Or.inl hr'
  · split at hr'
    · exact processRows_remaining _ _ _ _ _ _ _ store _ 0 _
        (fun x hx => Or.inl hx) r' hr'
    · exact Or.inl hr'

/-! ## Claims -/

/-- C1: For every successful save of a `PledgeRecord` — a direct `save` or
an upload-row upsert, including rows whose file supplies a `remaining`
column with a different value — the persisted record satisfies
`remaining = pledge - paid` exactly, for any decimal (cents) pledge/paid
pair; the `remaining` field is never independently settable, as the save
pipeline never reads the incoming value. -/
theorem C1_remaining_invariant :
    (∀ (r : PledgeRecord) (store : List PledgeRecord) (cands : List CodeTriple)
       (r' : PledgeRecord), r.save store cands = some r' →
         r'.remaining = r'.pledge - r'.paid) ∧
    (∀ (r : PledgeRecord) (store : List PledgeRecord) (cands : List CodeTriple)
       (x : Int), PledgeRecord.save { r with remaining := x } store cands =
         r.save store cands) ∧
    (∀ (df : DataFrame) (fn : String) (fids : Nat → Nat)
       (cands : Nat → List CodeTriple) (store : List PledgeRecord)
       (logs : List UploadLog),
       ∀ r' ∈ (process_upload_data df fn fids cands store logs).2.1,
         r' ∈ store ∨ r'.remaining = r'.pledge - r'.paid) :=
  ⟨fun _ _ _ _ h => save_remaining h,
   save_ignores_remaining,
   upload_store_remaining⟩

/-- Witness for C1 at concrete inputs: a record with `remaining = 77` in
memory saves to `remaining = 0 = pledge - paid`, and the stored value of
`remaining` has no influence on the save. -/
theorem C1_remaining_invariant_witness :
    (PledgeRecord.save { testRec 0 5000000 with remaining := 77 } [] [] =
       some { testRec 0 5000000 with card_capacity := 1 } ∧
     ({ testRec 0 5000000 with card_capacity := 1 } : PledgeRecord).remaining =
       ({ testRec 0 5000000 with card_capacity := 1 } : PledgeRecord).pledge -
         ({ testRec 0 5000000 with card_capacity := 1 } : PledgeRecord).paid) ∧
    PledgeRecord.save { testRec 0 5000000 with remaining := 77 } [] [] =
      (testRec 0 5000000).save [] [] :=
  ⟨⟨by decide,
    C1_remaining_invariant.1 { testRec 0 5000000 with remaining := 77 } [] []
      { testRec 0 5000000 with card_capacity := 1 } (by decide)⟩,
   C1_remaining_invariant.2.1 (testRec 0 5000000) [] [] 77⟩

/-- C2: On every save, `card_capacity` is recomputed only if its current
value is at most 2 (values above 2 are preserved as manual overrides):
`paid ≥ 100000` (10000000 cents) gives 2, `50000 ≤ paid < 100000` gives 1,
otherwise 0.  In particular `paid = 49999.99` gives 0, `paid = 50000.00`
gives 1, `paid = 99999.99` gives 1, `paid = 100000.00` gives 2, and a
record with `card_capacity = 5` keeps 5 after a save with
`paid = 200000`. -/
theorem C2_card_capacity_tiers :
    (∀ (r : PledgeRecord) (store : List PledgeRecord) (cands : List CodeTriple)
       (r' : PledgeRecord), r.save store cands = some r' →
         (r.card_capacity ≤ 2 →
            r'.card_capacity = if 10000000 ≤ r.paid then 2
              else if 5000000 ≤ r.paid then 1 else 0) ∧
         (2 < r.card_capacity → r'.card_capacity = r.card_capacity)) ∧
    Option.map (fun q => q.card_capacity) ((testRec 0 4999999).save [] []) = some 0 ∧
    Option.map (fun q => q.card_capacity) ((testRec 0 5000000).save [] []) = some 1 ∧
    Option.map (fun q => q.card_capacity) ((testRec 0 9999999).save [] []) = some 1 ∧
    Option.map (fun q => q.card_capacity) ((testRec 0 10000000).save [] []) = some 2 ∧
    Option.map (fun q => q.card_capacity) ((testRec 5 20000000).save [] []) = some 5 := by
  refine ⟨?_, by decide, by decide, by decide, by decide, by decide⟩
  intro r store cands r' h
  obtain ⟨code, hr, -, -⟩ := save_elim h
  subst hr
  constructor
  · intro hle
    simp only [deriveFields_card_capacity, phoneStep_card_capacity, phoneStep_paid]
    rw [if_pos hle]
  · intro hgt
    simp only [deriveFields_card_capacity, phoneStep_card_capacity, phoneStep_paid]
    rw [if_neg (not_le.mpr hgt)]

/-- Witness for C2 at a concrete input: a manual override capacity 5
survives a save with `paid = 200000.00`. -/
theorem C2_card_capacity_tiers_witness :
    (testRec 5 20000000).save [] [] = some { testRec 5 20000000 with remaining := 0 } ∧
    ({ testRec 5 20000000 with remaining := 0 } : PledgeRecord).card_capacity =
      (testRec 5 20000000).card_capacity :=
  ⟨by decide,
   ((C2_card_capacity_tiers.1 (testRec 5 20000000) [] []
       { testRec 5 20000000 with remaining := 0 } (by decide)).2 (by decide))⟩


/-! ## Card-code lemmas and claim C3 -/

/-- The shape every generated card code has: exactly three characters, all
drawn from the restricted alphabet. -/
def codeInvariant (s : String) : Prop :=
  s.toList.length = 3 ∧ ∀ c ∈ s.toList, c ∈ codeAlphabet

def mkTriple (a b c : Fin 22) : CodeTriple := (a, b, c)

theorem alphabet_not_space : ∀ c ∈ codeAlphabet, isPySpace c = false := by decide

theorem codeOfTriple_inv (t : CodeTriple) : codeInvariant (codeOfTriple t) := by
  refine ⟨rfl, ?_⟩
  intro c hc
  simp only [codeOfTriple, String.toList, List.mem_cons, List.not_mem_nil,
    or_false] at hc
  rcases hc with rfl | rfl | rfl <;> exact List.get_mem _ _ _

theorem generate_some {selfId : Nat} {store : List PledgeRecord} :
    ∀ {cands : List CodeTriple} {c : String},
      generate_unique_card_code selfId store cands = some c →
      (∃ t : CodeTriple, c = codeOfTriple t) ∧
        cardCodeTaken selfId store c = false := by
  intro cands
  induction cands with
  | nil => intro c h; exact Option.noConfusion h
  | cons t rest ih =>
    intro c h
    simp only [generate_unique_card_code] at h
    split at h
    · exact ih h
    · obtain rfl := Option.some.inj h
      rename_i hcond
      refine ⟨⟨t, rfl⟩, ?_⟩
      cases hb : cardCodeTaken selfId store (codeOfTriple t) with
      | false => rfl
      | true => exact absurd hb hcond

theorem codeInvariant_not_blank {s : String} (h : codeInvariant s) :
    isBlank s = false := by
  obtain ⟨hlen, hmem⟩ := h
  unfold isBlank
  cases hs : s.toList with
  | nil => rw [hs] at hlen; cases hlen
  | cons a l =>
    have ha : a ∈ codeAlphabet := hmem a (hs ▸ List.mem_cons_self a l)
    simp [hs, alphabet_not_space a ha]

/-- `full_clean` enforces that no other stored row shares the mobile number
or the card code. -/
theorem full_clean_unique {q : PledgeRecord} {store : List PledgeRecord}
    (hf : full_clean_ok q store = true) :
    ∀ o ∈ store, o.id ≠ q.id →
      o.mobile_number ≠ q.mobile_number ∧ o.card_code ≠ q.card_code := by
  intro o ho hid
  have hv : validate_unique_ok q store = true := by
    simp only [full_clean_ok, Bool.and_eq_true] at hf
    exact hf.2
  rw [validate_unique_ok, List.all_eq_true] at hv
  have ho2 := hv o ho
  simp only [Bool.or_eq_true, Bool.and_eq_true, decide_eq_true_eq,
    bne_iff_ne, ne_eq] at ho2
  rcases ho2 with h1 | h2
  · exact absurd h1 hid
  · constructor
    · simpa using h2.1
    · simpa using h2.2

/-- C3: After every save whose input card code is either empty or itself a
previously generated code, the record's `card_code` is exactly 3
characters drawn from `ABCDEFGHJKLMNPQRTUVWXY` and differs from the
`card_code` of every other record of the store (the uniqueness check
excludes the record's own primary key); a record that enters `save` with a
non-empty code keeps it unchanged. -/
theorem C3_card_code_invariant :
    ∀ (r : PledgeRecord) (store : List PledgeRecord) (cands : List CodeTriple)
      (r' : PledgeRecord), r.save store cands = some r' →
      r.card_code = "" ∨ codeInvariant r.card_code →
      codeInvariant r'.card_code ∧
      (∀ o ∈ store, o.id ≠ r.id → o.card_code ≠ r'.card_code) ∧
      (r.card_code ≠ "" → r'.card_code = r.card_code) := by
  intro r store cands r' h H
  obtain ⟨code, hr, hf, hcase⟩ := save_elim h
  have hcc : r'.card_code = code := by
    rw [hr]; simp [deriveFields_card_code]
  have hid : r'.id = r.id := by
    rw [hr]; simp [deriveFields_id, phoneStep_id]
  refine ⟨?_, ?_, ?_⟩
  · rw [hcc]
    rcases hcase with ⟨hb, hgen⟩ | ⟨hb, hcode⟩
    · obtain ⟨⟨t, rfl⟩, -⟩ := generate_some hgen
      exact codeOfTriple_inv t
    · subst hcode
      rcases H with he | hinv
      · rw [he] at hb; simp [isBlank] at hb
      · exact hinv
  · intro o ho hoid
    exact (full_clean_unique hf o ho (fun hx => hoid (hx.trans hid))).2
  · intro hne
    rcases hcase with ⟨hb, -⟩ | ⟨-, hcode⟩
    · rcases H with he | hinv
      · exact absurd he hne
      · rw [codeInvariant_not_blank hinv] at hb; cases hb
    · rw [hcc, hcode]

def otherRec : PledgeRecord :=
  { id := 2, mobile_number := "0755555555", name := "Bob", pledge := 0,
    paid := 0, remaining := 0, card_capacity := 0, card_code := "AAA",
    invitation_image_url := none, normal_message_sent := false,
    whatsapp_sent := false }

def blankCodeRec : PledgeRecord := { testRec 0 0 with card_code := "" }

/-- Witness for C3 at concrete inputs: starting from an empty code next to
a record holding `AAA`, generation rejects the colliding first draw `AAA`
and assigns `BCD`, which satisfies the shape invariant and avoids the
other record's code. -/
theorem C3_card_code_invariant_witness :
    PledgeRecord.save blankCodeRec [otherRec] [mkTriple 0 0 0, mkTriple 1 2 3] =
      some { testRec 0 0 with card_code := "BCD" } ∧
    codeInvariant ({ testRec 0 0 with card_code := "BCD" } : PledgeRecord).card_code ∧
    otherRec.card_code ≠
      ({ testRec 0 0 with card_code := "BCD" } : PledgeRecord).card_code ∧
    ({ testRec 0 0 with card_code := "BCD" } : PledgeRecord).card_code ≠ "" :=
  ⟨by decide,
   (C3_card_code_invariant blankCodeRec [otherRec]
      [mkTriple 0 0 0, mkTriple 1 2 3] { testRec 0 0 with card_code := "BCD" }
      (by decide) (Or.inl rfl)).1,
   (C3_card_code_invariant blankCodeRec [otherRec]
      [mkTriple 0 0 0, mkTriple 1 2 3] { testRec 0 0 with card_code := "BCD" }
      (by decide) (Or.inl rfl)).2.1 otherRec (List.mem_singleton.mpr rfl)
      (by decide),
   by decide⟩


/-! ## Phone-normalizer lemmas and claims C4, C5, C10 -/

theorem digit_not_space {c : Char} (h : isDigitChar c = true) :
    isPySpace c = false := by
  simp only [isDigitChar, Bool.and_eq_true, decide_eq_true_eq] at h
  simp only [isPySpace, Bool.or_eq_false_iff, decide_eq_false_iff_not]
  omega

theorem dropWhile_eq_self_of {p : Char → Bool} {l : List Char}
    (h : ∀ c ∈ l, p c = false) : l.dropWhile p = l := by
  cases l with
  | nil => rfl
  | cons a t => simp [List.dropWhile_cons, h a (List.mem_cons_self a t)]

theorem pyStripList_eq_self {l : List Char}
    (h : ∀ c ∈ l, isPySpace c = false) : pyStripList l = l := by
  unfold pyStripList
  rw [dropWhile_eq_self_of h,
    dropWhile_eq_self_of (fun c hc => h c (List.mem_reverse.mp hc)),
    List.reverse_reverse]

theorem digits_strip_self {l : List Char}
    (h : ∀ c ∈ l, isDigitChar c = true) : pyStripList l = l :=
  pyStripList_eq_self (fun c hc => digit_not_space (h c hc))

theorem digits_not_plus {l : List Char}
    (h : ∀ c ∈ l, isDigitChar c = true) : startsWithPlus l = false := by
  cases l with
  | nil => rfl
  | cons a t =>
    have ha := h a (List.mem_cons_self a t)
    simp only [isDigitChar, Bool.and_eq_true, decide_eq_true_eq] at ha
    simp only [startsWithPlus, decide_eq_false_iff_not]
    intro hp
    subst hp
    exact absurd ha (by decide)

/-- The final forcing step of the normalizer (models.py lines 35-41): given
ten-or-otherwise digits starting with `0`, the output is always ten digits
starting with `0`. -/
theorem padStep_props {l : List Char} (hl : ∀ c ∈ l, isDigitChar c = true)
    (hh : l.head? = some '0') :
    (if 10 < l.length then '0' :: l.drop (l.length - 9)
     else if l.length < 10 then l ++ List.replicate (10 - l.length) '0'
     else l).length = 10 ∧
    (∀ c ∈ (if 10 < l.length then '0' :: l.drop (l.length - 9)
            else if l.length < 10 then l ++ List.replicate (10 - l.length) '0'
            else l), isDigitChar c = true) ∧
    (if 10 < l.length then '0' :: l.drop (l.length - 9)
     else if l.length < 10 then l ++ List.replicate (10 - l.length) '0'
     else l).head? = some '0' := by
  have h0 : isDigitChar '0' = true := by decide
  obtain ⟨t, rfl⟩ : ∃ t, l = '0' :: t := by
    cases l with
    | nil => cases hh
    | cons a t => exact ⟨t, by rw [Option.some.inj hh]⟩
  by_cases hgt : 10 < ('0' :: t).length
  · rw [if_pos hgt]
    refine ⟨?_, ?_, rfl⟩
    · simp only [List.length_cons, List.length_drop]
      simp only [List.length_cons] at hgt
      omega
    · intro c hc
      rcases List.mem_cons.mp hc with rfl | hc
      · exact h0
      · exact hl c (List.drop_subset _ _ hc)
  · rw [if_neg hgt]
    by_cases hlt : ('0' :: t).length < 10
    · rw [if_pos hlt]
      refine ⟨?_, ?_, ?_⟩
      · simp only [List.length_append, List.length_replicate]
        omega
      · intro c hc
        rcases List.mem_append.mp hc with hc | hc
        · exact hl c hc
        · rw [List.eq_of_mem_replicate hc]; exact h0
      · rw [List.cons_append, List.head?_cons]
    · rw [if_neg hlt]
      exact ⟨by omega, hl, rfl⟩

/-- The digit-fixing core always yields ten digits starting with `0`. -/
theorem fixDigits_props {d : List Char}
    (hd : ∀ c ∈ d, isDigitChar c = true) :
    (fixDigits d).length = 10 ∧
    (∀ c ∈ fixDigits d, isDigitChar c = true) ∧
    (fixDigits d).head? = some '0' := by
  have h0 : isDigitChar '0' = true := by decide
  simp only [fixDigits]
  set d1 := if d.take 3 = ['2', '5', '5'] ∧ d.length = 12
      then '0' :: d.drop 3 else d with hd1def
  have hd1 : ∀ c ∈ d1, isDigitChar c = true := by
    rw [hd1def]
    split
    · intro c hc
      rcases List.mem_cons.mp hc with rfl | hc
      · exact h0
      · exact hd c (List.drop_subset _ _ hc)
    · exact hd
  set d2 := if d1.head? = some '0' then d1 else '0' :: d1 with hd2def
  have hd2 : ∀ c ∈ d2, isDigitChar c = true := by
    rw [hd2def]
    split
    · exact hd1
    · intro c hc
      rcases List.mem_cons.mp hc with rfl | hc
      · exact h0
      · exact hd1 c hc
  have hh2 : d2.head? = some '0' := by
    rw [hd2def]
    split
    · assumption
    · rw [List.head?_cons]
  exact padStep_props hd2 hh2

theorem mk_ne_empty (a : Char) (t : List Char) : (⟨a :: t⟩ : String) ≠ "" := by
  intro h
  exact List.noConfusion (congrArg String.toList h)

/-- For non-empty input not starting with `+` after trimming, the
normalizer reduces to `fixDigits` over the trimmed digits. -/
theorem format_shape {s : String} (hs : s ≠ "")
    (hplus : startsWithPlus (pyStripList s.toList) = false) :
    (format_phone_number s).toList =
      fixDigits ((pyStripList s.toList).filter isDigitChar) := by
  simp only [format_phone_number, if_neg hs, hplus, Bool.false_eq_true,
    if_false]
  rfl

theorem filter_digits_all (l : List Char) :
    ∀ c ∈ l.filter isDigitChar, isDigitChar c = true := by
  intro c hc
  exact (List.mem_filter.mp hc).2

/-- C10: For every non-empty input whose trimmed form does not start with
`+`, `format_phone_number` returns a string of exactly 10 characters, all
decimal digits, beginning with `0`; consequently `validate_phone_number`
accepts that output without raising. -/
theorem C10_format_always_valid :
    ∀ (s : String), s ≠ "" →
      startsWithPlus (pyStripList s.toList) = false →
      (format_phone_number s).toList.length = 10 ∧
      (∀ c ∈ (format_phone_number s).toList, isDigitChar c = true) ∧
      (format_phone_number s).toList.head? = some '0' ∧
      validate_phone_number (format_phone_number s) = .ok () := by
  intro s hs hplus
  have hshape := format_shape hs hplus
  obtain ⟨hlen, hdig, hhead⟩ :=
    fixDigits_props (filter_digits_all (pyStripList s.toList))
  rw [← hshape] at hlen hdig hhead
  refine ⟨hlen, hdig, hhead, ?_⟩
  obtain ⟨rest, hrest⟩ : ∃ rest, (format_phone_number s).toList = '0' :: rest := by
    cases hl : (format_phone_number s).toList with
    | nil => rw [hl] at hhead; cases hhead
    | cons a t =>
      rw [hl] at hhead
      exact ⟨t, by rw [← Option.some.inj hhead]⟩
  have hne2 : format_phone_number s ≠ "" := by
    intro h
    rw [h] at hrest
    exact List.noConfusion hrest
  rw [hrest] at hdig hlen
  have hstrip2 : pyStripList ('0' :: rest) = '0' :: rest :=
    digits_strip_self hdig
  have hplus2 : startsWithPlus ('0' :: rest) = false := by
    simp [startsWithPlus]
  have hloc : localMatch ('0' :: rest) = true := by
    simp only [localMatch, Bool.and_eq_true, decide_eq_true_eq,
      List.all_eq_true]
    refine ⟨⟨trivial, ?_⟩, ?_⟩
    · simp only [List.length_cons] at hlen; omega
    · intro c hc
      exact hdig c (List.mem_cons_of_mem _ hc)
  simp only [validate_phone_number, if_neg hne2, hrest, hstrip2, hplus2,
    Bool.false_eq_true, if_false, hloc, if_true]

/-- Witness for C10 at a concrete input: `"712345678"` trims to a
non-plus string and normalizes to the valid `"0712345678"`. -/
theorem C10_format_always_valid_witness :
    (format_phone_number "712345678").toList.length = 10 ∧
    (format_phone_number "712345678").toList.head? = some '0' ∧
    validate_phone_number (format_phone_number "712345678") = .ok () :=
  ⟨(C10_format_always_valid "712345678" (by decide) (by decide)).1,
   (C10_format_always_valid "712345678" (by decide) (by decide)).2.2.1,
   (C10_format_always_valid "712345678" (by decide) (by decide)).2.2.2⟩


theorem exists_cons_of_head_zero {l : List Char} (h : l.head? = some '0') :
    ∃ t, l = '0' :: t := by
  cases l with
  | nil => exact absurd h (by simp)
  | cons a t => exact ⟨t, by rw [Option.some.inj h]⟩

/-- A ten-digit string starting with `0` is a fixed point of the
normalizer. -/
theorem format_fixed {l : List Char} (hlen : l.length = 10)
    (hhead : l.head? = some '0') (hdig : ∀ c ∈ l, isDigitChar c = true) :
    format_phone_number ⟨l⟩ = ⟨l⟩ := by
  obtain ⟨t, rfl⟩ := exists_cons_of_head_zero hhead
  have hne : (⟨'0' :: t⟩ : String) ≠ "" := mk_ne_empty _ _
  have htl : (⟨'0' :: t⟩ : String).toList = '0' :: t := rfl
  have hstrip : pyStripList ('0' :: t) = '0' :: t := digits_strip_self hdig
  have hplus : startsWithPlus ('0' :: t) = false := by simp [startsWithPlus]
  have hfilter : ('0' :: t).filter isDigitChar = '0' :: t :=
    List.filter_eq_self.mpr hdig
  simp only [format_phone_number, if_neg hne, htl, hstrip, hplus,
    Bool.false_eq_true, if_false, hfilter]
  congr 1
  simp only [fixDigits]
  have h255 : ¬(List.take 3 ('0' :: t) = ['2', '5', '5'] ∧
      ('0' :: t).length = 12) := by
    rintro ⟨-, h12⟩
    omega
  rw [if_neg h255]
  rw [if_pos (show ('0' :: t).head? = some '0' from rfl)]
  rw [if_neg (show ¬(10 < ('0' :: t).length) by omega),
    if_neg (show ¬(('0' :: t).length < 10) by omega)]

/-- C5: For every 9-to-15-digit input string, the normalizer is
idempotent. -/
theorem C5_normalize_idempotent :
    ∀ (x : String), (∀ c ∈ x.toList, isDigitChar c = true) →
      9 ≤ x.toList.length → x.toList.length ≤ 15 →
      format_phone_number (format_phone_number x) = format_phone_number x := by
  intro x hdig hge _hle
  have hne : x ≠ "" := by
    intro h
    rw [h] at hge
    exact absurd hge (by decide)
  have hstrip : pyStripList x.toList = x.toList := digits_strip_self hdig
  have hplus : startsWithPlus (pyStripList x.toList) = false := by
    rw [hstrip]; exact digits_not_plus hdig
  have hshape := format_shape hne hplus
  rw [hstrip, List.filter_eq_self.mpr hdig] at hshape
  obtain ⟨hlen, hdig2, hhead⟩ := fixDigits_props hdig
  rw [← hshape] at hlen hdig2 hhead
  exact format_fixed hlen hhead hdig2

/-- Witness for C5 at a concrete input: the international-looking digit
string `255712345678` normalizes to `0712345678` and renormalizing it is a
no-op. -/
theorem C5_normalize_idempotent_witness :
    (∀ c ∈ ("255712345678" : String).toList, isDigitChar c = true) ∧
    9 ≤ ("255712345678" : String).toList.length ∧
    ("255712345678" : String).toList.length ≤ 15 ∧
    format_phone_number (format_phone_number "255712345678") =
      format_phone_number "255712345678" :=
  ⟨by decide, by decide, by decide,
   C5_normalize_idempotent "255712345678" (by decide) (by decide) (by decide)⟩

/-- Modelled from the spec (§4.1): the reference normalization algorithm,
step by step as the spec words it — trimmed `+` inputs returned as-is,
non-digits stripped, 12-digit `255` prefix rewritten to a leading `0`,
a leading `0` ensured, and the result forced to exactly 10 digits (longer:
keep the last 9 digits and prepend `0`; shorter: right-pad with `0`). -/
def referenceNormalize (input : String) : String :=
  if input = "" then input
  else
    let trimmed := pyStripList input.toList
    if startsWithPlus trimmed then ⟨trimmed⟩
    else
      let ds := trimmed.filter isDigitChar
      let ds1 := if ds.take 3 = ['2', '5', '5'] ∧ ds.length = 12
          then '0' :: ds.drop 3 else ds
      let ds2 := if ds1.head? = some '0' then ds1 else '0' :: ds1
      ⟨if 10 < ds2.length then '0' :: ds2.drop (ds2.length - 9)
        else ds2 ++ List.replicate (10 - ds2.length) '0'⟩

/-- The two phrasings of the padding step agree: at exactly ten digits the
right-pad is empty, so the three-way split of the source collapses to the
spec's two-way one. -/
theorem padStep_eq (l : List Char) :
    (if 10 < l.length then '0' :: l.drop (l.length - 9)
     else if l.length < 10 then l ++ List.replicate (10 - l.length) '0'
     else l) =
    (if 10 < l.length then '0' :: l.drop (l.length - 9)
     else l ++ List.replicate (10 - l.length) '0') := by
  by_cases h1 : 10 < l.length
  · rw [if_pos h1, if_pos h1]
  · rw [if_neg h1, if_neg h1]
    by_cases h2 : l.length < 10
    · rw [if_pos h2]
    · rw [if_neg h2]
      have hl : l.length = 10 := by omega
      rw [hl]
      simp

/-- C4: `format_phone_number` implements the spec's reference algorithm
for every input string, and in particular maps `0712345678`,
`255712345678` and `712345678` to `0712345678` and returns
`+255712345678` unchanged. -/
theorem C4_normalize_reference :
    (∀ s : String, format_phone_number s = referenceNormalize s) ∧
    format_phone_number "0712345678" = "0712345678" ∧
    format_phone_number "255712345678" = "0712345678" ∧
    format_phone_number "712345678" = "0712345678" ∧
    format_phone_number "+255712345678" = "+255712345678" := by
  refine ⟨?_, by decide, by decide, by decide, by decide⟩
  intro s
  by_cases hs : s = ""
  · rw [hs]; rfl
  · by_cases hp : startsWithPlus (pyStripList s.toList) = true
    · simp only [format_phone_number, referenceNormalize, if_neg hs, hp,
        if_true]
    · rw [Bool.not_eq_true] at hp
      simp only [format_phone_number, referenceNormalize, if_neg hs, hp,
        Bool.false_eq_true, if_false]
      congr 1
      simp only [fixDigits]
      exact padStep_eq _

/-- Witness for C4 at a concrete input: the implementation and the
reference algorithm agree on `"0044 20 7946"`. -/
theorem C4_normalize_reference_witness :
    format_phone_number "0044 20 7946" = referenceNormalize "0044 20 7946" :=
  C4_normalize_reference.1 "0044 20 7946"


/-! ## Upload error handling: claims C6 and C7 -/

/-- C6: When any of the four required fields has no column resolved via the
alias table, the whole upload aborts with the missing-columns error before
any storage write: the record store and the upload-log table are returned
exactly as they were. -/
theorem C6_missing_columns_abort :
    ∀ (df : DataFrame) (fn : String) (fids : Nat → Nat)
      (cands : Nat → List CodeTriple) (store : List PledgeRecord)
      (logs : List UploadLog),
      missingColumnsOf df ≠ [] →
      process_upload_data df fn fids cands store logs =
        (.error ("Missing required columns: " ++
           String.intercalate ", " (missingColumnsOf df)), store, logs) := by
  intro df fn fids cands store logs hm
  simp only [process_upload_data, if_pos hm]

def dfNoPaid : DataFrame :=
  { columns := ["Name", "Mobile Number", "Pledge"],
    rows := [[("Name", "Alice"), ("Mobile Number", "0712345678"),
              ("Pledge", "100")]] }

/-- Witness for C6 at a concrete input: a frame without any `paid` alias
aborts, writes no log row and leaves the store untouched. -/
theorem C6_missing_columns_abort_witness :
    missingColumnsOf dfNoPaid = ["paid"] ∧
    (process_upload_data dfNoPaid "bad.csv" (fun i => i) (fun _ => []) [] []).1 =
      .error "Missing required columns: paid" ∧
    (process_upload_data dfNoPaid "bad.csv" (fun i => i) (fun _ => []) [] []).2.1 = [] ∧
    (process_upload_data dfNoPaid "bad.csv" (fun i => i) (fun _ => []) [] []).2.2 = [] := by
  refine ⟨by decide, ?_, ?_, ?_⟩ <;>
    · rw [C6_missing_columns_abort dfNoPaid "bad.csv" (fun i => i)
        (fun _ => []) [] [] (by decide)]
      try rfl

theorem upsertRow_errors {fid : Nat} {cnds : List CodeTriple}
    {mobile nm : String} {pledge paid remaining : Int} {st st' : UpState}
    (h : upsertRow fid cnds mobile nm pledge paid remaining st = .ok st') :
    st'.errors = st.errors := by
  simp only [upsertRow] at h
  split at h
  · rw [← Except.ok.inj h]
  · split at h
    · split at h
      · rw [← Except.ok.inj h]
      · exact Except.noConfusion h
    · split at h
      · rw [← Except.ok.inj h]
      · exact Except.noConfusion h

/-- A row body that returns normally never touches the error list. -/
theorem rowAttempt_errors {ncol mcol pcol qcol : String} {rc : Option String}
    {fid : Nat} {cnds : List CodeTriple} {row : Row} {st st' : UpState}
    (h : rowAttempt ncol mcol pcol qcol rc fid cnds row st = .ok st') :
    st'.errors = st.errors := by
  cases rc with
  | some rc' =>
    simp only [rowAttempt] at h
    obtain ⟨mraw, -, h⟩ := except_bind_ok h
    obtain ⟨nraw, -, h⟩ := except_bind_ok h
    obtain ⟨praw, -, h⟩ := except_bind_ok h
    obtain ⟨pledge, -, h⟩ := except_bind_ok h
    obtain ⟨qraw, -, h⟩ := except_bind_ok h
    obtain ⟨paid, -, h⟩ := except_bind_ok h
    obtain ⟨rraw, -, h⟩ := except_bind_ok h
    obtain ⟨remaining, -, h⟩ := except_bind_ok h
    exact upsertRow_errors h
  | none =>
    simp only [rowAttempt] at h
    obtain ⟨mraw, -, h⟩ := except_bind_ok h
    obtain ⟨nraw, -, h⟩ := except_bind_ok h
    obtain ⟨praw, -, h⟩ := except_bind_ok h
    obtain ⟨pledge, -, h⟩ := except_bind_ok h
    obtain ⟨qraw, -, h⟩ := except_bind_ok h
    obtain ⟨paid, -, h⟩ := except_bind_ok h
    obtain ⟨remaining, -, h⟩ := except_bind_ok h
    exact upsertRow_errors h

def mkRow (nm mob pl pd : String) : Row :=
  [("Name", nm), ("Mobile Number", mob), ("Pledge", pl), ("Paid", pd)]

def df11 : DataFrame :=
  { columns := ["Name", "Mobile Number", "Pledge", "Paid"],
    rows := [ mkRow "P1" "0712345601" "1000" "500",
              mkRow "P2" "0712345602" "1000" "500",
              mkRow "P3" "0712345603" "1000" "500",
              mkRow "P4" "0712345604" "1000" "500",
              mkRow "P5" "0712345605" "1000" "500",
              mkRow "P6" "0712345606" "1000" "500",
              mkRow "P7" "0712345607" "1000" "500",
              mkRow "P8" "0712345608" "1000" "500",
              mkRow "P9" "0712345609" "1000" "500",
              mkRow "P10" "0712345610" "1000" "500",
              mkRow "P11" "0712345611" "abc" "500" ] }

def uploadIds : Nat → Nat := fun i => 100 + i

def uploadCands : Nat → List CodeTriple := fun i => [mkTriple (Fin.ofNat i) 0 0]

/-- C7: A failing row is caught: it appends exactly one entry of the form
`"Row {n}: {message}"`, changes nothing else, and the loop goes on with the
next row; on the concrete file of 10 valid rows plus one row with a
non-numeric pledge the report shows `total = 11`, one error entry,
`new + updated = 10`, the 10 valid rows are persisted, and one UploadLog
row records the error text. -/
theorem C7_row_error_isolation :
    (∀ (ncol mcol pcol qcol : String) (rc : Option String) (fid : Nat)
       (cnds : List CodeTriple) (i : Nat) (row : Row) (st : UpState),
       (processRow ncol mcol pcol qcol rc fid cnds i row st).errors = st.errors ∨
       ∃ msg, rowAttempt ncol mcol pcol qcol rc fid cnds row st = .error msg ∧
         processRow ncol mcol pcol qcol rc fid cnds i row st =
           { st with errors :=
               st.errors ++ ["Row " ++ toString (i + 1) ++ ": " ++ msg] }) ∧
    (∀ (ncol mcol pcol qcol : String) (rc : Option String)
       (fids : Nat → Nat) (cands : Nat → List CodeTriple) (i : Nat)
       (row : Row) (rest : List Row) (st : UpState),
       processRows ncol mcol pcol qcol rc fids cands i (row :: rest) st =
         processRows ncol mcol pcol qcol rc fids cands (i + 1) rest
           (processRow ncol mcol pcol qcol rc (fids i) (cands i) i row st)) ∧
    (process_upload_data df11 "f.csv" uploadIds uploadCands [] []).1 =
      .ok { total_records := 11, new_records := 10, updated_records := 0,
            errors := ["Row 11: InvalidOperation: abc"],
            message := "Processed 11 records. New: 10, Updated: 0. Errors: 1" } ∧
    (process_upload_data df11 "f.csv" uploadIds uploadCands [] []).2.1.map
        (fun r => r.mobile_number) =
      ["0712345601", "0712345602", "0712345603", "0712345604", "0712345605",
       "0712345606", "0712345607", "0712345608", "0712345609", "0712345610"] ∧
    (process_upload_data df11 "f.csv" uploadIds uploadCands [] []).2.2 =
      [{ filename := "f.csv", total_records := 11, new_records := 10,
         updated_records := 0, errors := "Row 11: InvalidOperation: abc" }] := by
  refine ⟨?_, fun _ _ _ _ _ _ _ _ _ _ _ => rfl, rfl, by decide, by decide⟩
  intro ncol mcol pcol qcol rc fid cnds i row st
  unfold processRow
  cases ha : rowAttempt ncol mcol pcol qcol rc fid cnds row st with
  | ok st2 => exact Or.inl (rowAttempt_errors ha)
  | error msg => exact Or.inr ⟨msg, rfl, rfl⟩

/-- Witness for C7's universally quantified parts at concrete inputs: a row
whose pledge cell is non-numeric appends exactly the `Row 1:` entry, and
the loop equation lets processing continue to an empty tail. -/
theorem C7_row_error_isolation_witness :
    ((processRow "name" "mobile_number" "pledge" "paid" none 7 []
        0 [("name", "X"), ("mobile_number", "0712345678"),
           ("pledge", "zz"), ("paid", "1")]
        { store := [], new_records := 0, updated_records := 0,
          errors := [] }).errors = [] ∨
     ∃ msg, rowAttempt "name" "mobile_number" "pledge" "paid" none 7 []
        [("name", "X"), ("mobile_number", "0712345678"),
         ("pledge", "zz"), ("paid", "1")]
        { store := [], new_records := 0, updated_records := 0,
          errors := [] } = .error msg ∧
       processRow "name" "mobile_number" "pledge" "paid" none 7 []
          0 [("name", "X"), ("mobile_number", "0712345678"),
             ("pledge", "zz"), ("paid", "1")]
          { store := [], new_records := 0, updated_records := 0,
            errors := [] } =
         { store := [], new_records := 0, updated_records := 0,
           errors := ["Row " ++ toString (0 + 1) ++ ": " ++ msg] }) ∧
    processRows "name" "mobile_number" "pledge" "paid" none uploadIds
        uploadCands 0
        [[("name", "X"), ("mobile_number", "0712345678"),
          ("pledge", "zz"), ("paid", "1")]]
        { store := [], new_records := 0, updated_records := 0, errors := [] } =
      processRows "name" "mobile_number" "pledge" "paid" none uploadIds
        uploadCands 1 []
        (processRow "name" "mobile_number" "pledge" "paid" none
          (uploadIds 0) (uploadCands 0) 0
          [("name", "X"), ("mobile_number", "0712345678"),
           ("pledge", "zz"), ("paid", "1")]
          { store := [], new_records := 0, updated_records := 0,
            errors := [] }) :=
  ⟨C7_row_error_isolation.1 "name" "mobile_number" "pledge" "paid" none 7 []
      0 [("name", "X"), ("mobile_number", "0712345678"),
         ("pledge", "zz"), ("paid", "1")]
      { store := [], new_records := 0, updated_records := 0, errors := [] },
   C7_row_error_isolation.2.1 "name" "mobile_number" "pledge" "paid" none
      uploadIds uploadCands 0
      [("name", "X"), ("mobile_number", "0712345678"),
       ("pledge", "zz"), ("paid", "1")] []
      { store := [], new_records := 0, updated_records := 0, errors := [] }⟩


/-! ## Dispatcher lemmas and claims C8, C9 -/

theorem map_update_noop {msgs : List SMSMessage} {mid : Nat} {m : SMSMessage}
    (hf : ∀ x ∈ msgs, x.id ≠ mid) :
    msgs.map (fun o => if o.id = mid then m else o) = msgs := by
  induction msgs with
  | nil => rfl
  | cons a t ih =>
    simp only [List.map_cons, if_neg (hf a (List.mem_cons_self a t))]
    rw [ih (fun x hx => hf x (List.mem_cons_of_mem a hx))]

/-- Updating the freshly inserted row in place touches exactly that row. -/
theorem updateMsg_append_fresh {msgs : List SMSMessage} {mid : Nat}
    {p m : SMSMessage} (hf : ∀ x ∈ msgs, x.id ≠ mid) (hp : p.id = mid) :
    updateMsg (msgs ++ [p]) mid m = msgs ++ [m] := by
  unfold updateMsg
  rw [List.map_append, map_update_noop hf]
  simp [hp]

/-- C8 (amended): the SMS dispatcher operations — `send_pledge_sms` and
`send_forwarded_sms` — first create one Message row in `pending` state
before the provider call and then update that same row in place to
`sent` with the provider message id, or to `failed` with the error text
when the provider raises, so exactly one row exists per send attempt; the
chat-image (WhatsApp) dispatcher, by contrast, creates no Message row at
all. -/
theorem C8_dispatcher_message_rows :
    (∀ (fmt : String → PledgeRecord → String → String) (dt : String)
       (r : PledgeRecord) (custom : Option String) (provider : ProviderResult)
       (msgs : List SMSMessage) (mid : Nat),
       (∀ m ∈ msgs, m.id ≠ mid) →
       ∃ p : SMSMessage, p.status = .pending ∧ p.id = mid ∧
         p.pledge_record_id = r.id ∧ p.message_id = "" ∧
         (send_pledge_sms fmt dt r custom provider msgs mid).2.1 = msgs ++ [p] ∧
         (send_pledge_sms fmt dt r custom provider msgs mid).2.2 =
           msgs ++ [match provider with
             | .success pmid _ => { p with status := .sent, message_id := pmid }
             | .failure err => { p with status := .failed, error_message := err }]) ∧
    (∀ (fmt : String → PledgeRecord → String → String) (dt : String)
       (original : PledgeRecord) (number : String) (nm custom : Option String)
       (provider : ProviderResult) (store : List PledgeRecord)
       (msgs : List SMSMessage) (mid : Nat),
       (∀ m ∈ msgs, m.id ≠ mid) →
       ∃ p : SMSMessage, p.status = .pending ∧ p.id = mid ∧
         p.pledge_record_id = original.id ∧
         (send_forwarded_sms fmt dt original number nm custom provider
             store msgs mid).2.2.1 = msgs ++ [p] ∧
         (send_forwarded_sms fmt dt original number nm custom provider
             store msgs mid).2.2.2 =
           msgs ++ [match provider with
             | .success pmid _ => { p with status := .sent, message_id := pmid }
             | .failure err => { p with status := .failed, error_message := err }]) ∧
    (∀ (url : String) (te credsOk : Bool) (api : WaApiResult)
       (r : PledgeRecord) (store : List PledgeRecord)
       (cands1 cands2 : List CodeTriple) (msgs : List SMSMessage),
       (send_invitation_whatsapp url te credsOk api r store
           cands1 cands2 msgs).2.2 = msgs) := by
  refine ⟨?_, ?_, ?_⟩
  · intro fmt dt r custom provider msgs mid hf
    cases provider with
    | success pmid pst =>
      exact ⟨_, rfl, rfl, rfl, rfl, rfl, by
        simp only [send_pledge_sms]
        rw [updateMsg_append_fresh hf rfl]⟩
    | failure err =>
      exact ⟨_, rfl, rfl, rfl, rfl, rfl, by
        simp only [send_pledge_sms]
        rw [updateMsg_append_fresh hf rfl]⟩
  · intro fmt dt original number nm custom provider store msgs mid hf
    cases provider with
    | success pmid pst =>
      exact ⟨_, rfl, rfl, rfl, rfl, by
        simp only [send_forwarded_sms]
        rw [updateMsg_append_fresh hf rfl]⟩
    | failure err =>
      exact ⟨_, rfl, rfl, rfl, rfl, by
        simp only [send_forwarded_sms]
        rw [updateMsg_append_fresh hf rfl]⟩
  · intro url te credsOk api r store cands1 cands2 msgs
    simp only [send_invitation_whatsapp]
    split
    · rfl
    · split
      · rfl
      · split
        · rfl
        · split
          · split
            · rfl
            · rfl
          · rfl

/-- Counterexample to C8 as stated: a fully successful WhatsApp send — a
send attempt of the chat-image dispatcher — during which no Message row is
created at all (the message table stays empty), contradicting "always
first creating a Message row in pending state ... exactly one Message row
exists per send attempt". -/
theorem C8_counterexample_whatsapp_no_row :
    (send_invitation_whatsapp "http://x/i.png" true true (.ok "wamid.1")
        (testRec 0 0) [] [] [] []).1.success = true ∧
    (send_invitation_whatsapp "http://x/i.png" true true (.ok "wamid.1")
        (testRec 0 0) [] [] [] []).2.2 = ([] : List SMSMessage) := by
  exact ⟨by decide, by decide⟩

/-- Witness for C8 (amended) at concrete inputs: one SMS send attempt that
fails at the provider leaves exactly one `failed` row, and the successful
WhatsApp attempt leaves the message table unchanged. -/
theorem C8_dispatcher_message_rows_witness :
    (send_pledge_sms (fun t _ _ => t) "T" (testRec 0 0) none
        (.failure "boom") [] 1).2.2.map
      (fun m => (m.id, m.status, m.error_message)) = [(1, .failed, "boom")] ∧
    (send_invitation_whatsapp "http://x/i.png" true true (.ok "wamid.1")
        (testRec 0 0) [] [] [] []).2.2 = ([] : List SMSMessage) := by
  constructor
  · obtain ⟨p, -, hpid, -, hmid, -, hfinal⟩ :=
      C8_dispatcher_message_rows.1 (fun t _ _ => t) "T" (testRec 0 0) none
        (.failure "boom") [] 1 (fun m hm => absurd hm (List.not_mem_nil m))
    rw [hfinal]
    simp [hpid, hmid]
  · exact C8_dispatcher_message_rows.2.2 "http://x/i.png" true true
      (.ok "wamid.1") (testRec 0 0) [] [] [] []

/-- C9 (amended): forwarding never mutates any stored record — in
particular the original record's `mobile_number`, `normal_message_sent`
and `whatsapp_sent` are untouched whether the provider call succeeds or
fails — and creates exactly one Message row referencing the original
record whose recipient number is the forwarded number and whose recipient
name is the forwarded name when a non-empty name is supplied (an empty or
missing name is recorded as `Forwarded Guest`). -/
theorem C9_forward_frame :
    ∀ (fmt : String → PledgeRecord → String → String) (dt : String)
      (original : PledgeRecord) (number : String) (nm custom : Option String)
      (provider : ProviderResult) (store : List PledgeRecord)
      (msgs : List SMSMessage) (mid : Nat),
      (∀ m ∈ msgs, m.id ≠ mid) →
      (send_forwarded_sms fmt dt original number nm custom provider
          store msgs mid).2.1 = store ∧
      ∃ p : SMSMessage,
        (send_forwarded_sms fmt dt original number nm custom provider
            store msgs mid).2.2.2 = msgs ++ [p] ∧
        p.pledge_record_id = original.id ∧
        p.recipient_mobile = number ∧
        p.recipient_name = (match nm with
          | some n => if n = "" then "Forwarded Guest" else n
          | none => "Forwarded Guest") := by
  intro fmt dt original number nm custom provider store msgs mid hf
  refine ⟨?_, ?_⟩
  · cases provider <;> rfl
  · cases provider with
    | success pmid pst =>
      exact ⟨_, by
        simp only [send_forwarded_sms]
        rw [updateMsg_append_fresh hf rfl], rfl, rfl, rfl⟩
    | failure err =>
      exact ⟨_, by
        simp only [send_forwarded_sms]
        rw [updateMsg_append_fresh hf rfl], rfl, rfl, rfl⟩

/-- Counterexample to C9 as stated: forwarding with the (empty) recipient
name `""` produces a Message row whose `recipient_name` is
`"Forwarded Guest"`, not the forwarded value, so the created row's
recipient name is not always the forwarded name. -/
theorem C9_counterexample_empty_name :
    (send_forwarded_sms (fun t _ _ => t) "T" (testRec 0 0) "0755555555"
        (some "") none (.success "m1" "ok") [] [] 1).2.2.2.map
      (fun m => m.recipient_name) = ["Forwarded Guest"] ∧
    "Forwarded Guest" ≠ "" := by
  exact ⟨by decide, by decide⟩

/-- Witness for C9 (amended) at concrete inputs: a failing forwarded send
to a fresh number leaves the store untouched and logs one row against the
original record with the supplied non-empty name. -/
theorem C9_forward_frame_witness :
    (send_forwarded_sms (fun t _ _ => t) "T" (testRec 0 0) "0755555555"
        (some "Carol") none (.failure "down") [testRec 0 0] [] 1).2.1 =
      [testRec 0 0] ∧
    (send_forwarded_sms (fun t _ _ => t) "T" (testRec 0 0) "0755555555"
        (some "Carol") none (.failure "down") [testRec 0 0] [] 1).2.2.2.map
      (fun m => (m.pledge_record_id, m.recipient_mobile, m.recipient_name)) =
      [(1, "0755555555", "Carol")] := by
  constructor
  · exact (C9_forward_frame (fun t _ _ => t) "T" (testRec 0 0) "0755555555"
      (some "Carol") none (.failure "down") [testRec 0 0] [] 1
      (fun m hm => absurd hm (List.not_mem_nil m))).1
  · obtain ⟨p, hlist, hrec, hmob, hname⟩ :=
      (C9_forward_frame (fun t _ _ => t) "T" (testRec 0 0) "0755555555"
        (some "Carol") none (.failure "down") [testRec 0 0] [] 1
        (fun m hm => absurd hm (List.not_mem_nil m))).2
    rw [hlist]
    simp only [List.map_cons, List.map_nil, List.map_append]
    rw [hrec, hmob, hname]
    rfl

end PledgeManager
